import Mathlib

/-!
Shallow embedding of the asynchronous download-and-convert pipeline of
`src/src/arxiv_mcp_server/tools/download.py` (module `arxiv_mcp_server.tools.download`).

The module keeps a global dictionary `conversion_statuses` of `ConversionStatus`
records, a storage directory on disk, and exposes `handle_download`, which either
answers a status-only poll, short-circuits on a cached artifact or an existing
record, or downloads the PDF and spawns a background conversion task
(`convert_pdf_to_markdown`).

Modelling choices:
- timestamps (`datetime.now()`) are `Nat` parameters passed at each call;
- the filesystem is a flag for the storage directory plus a map `path ↦ content`;
- the network (`httpx`) and the extractor (`pymupdf4llm.to_markdown`) are
  oracles in an `Env` record;
- Python exceptions are an explicit `PyExn` value threaded through `Except`;
  the `try/except` clauses of `handle_download` form the wrapper around the body;
- observable actions (record creation, phase changes, the network call, file
  writes, the extractor call) are logged as `Event`s in execution order; every
  event of a call happened before that call returned;
- the background task spawned with `asyncio.create_task(asyncio.to_thread(...))`
  is returned as a pending `(paper_id, pdf_path)` pair instead of being run.
-/

namespace ArxivMcp

/-- Modelled from the spec: the configuration layer (`..config.Settings`) is not
present under src/; the spec only says it supplies "the storage root directory".
We model `settings.STORAGE_PATH` as a fixed abstract root path. -/
def STORAGE_PATH : String := "/papers"

/-- `ConversionStatus` dataclass: tracks the status of a PDF to Markdown
conversion; `status` ranges over "downloading", "converting", "success",
"error". -/
structure ConversionStatus where
  paper_id : String
  status : String
  started_at : Nat
  completed_at : Option Nat := none
  error : Option String := none
deriving DecidableEq

/-- The filesystem: whether the storage directory exists, and the files
(`path ↦ content`). -/
structure FS where
  dirExists : Bool
  files : String → Option String

def FS.get (fs : FS) (p : String) : Option String := fs.files p

def FS.write (fs : FS) (p : String) (c : String) : FS :=
  { fs with files := fun q => if q = p then some c else fs.files q }

/-- The mutable module state: the filesystem and the global
`conversion_statuses` dictionary. -/
structure St where
  fs : FS
  conversion_statuses : String → Option ConversionStatus

/-- The path `storage_path / f"{paper_id}{suffix}"`. -/
def paperPath (paper_id : String) (suffix : String) : String :=
  STORAGE_PATH ++ "/" ++ paper_id ++ suffix

/-- `get_paper_path`: returns the absolute file path for a paper with the given
suffix, and performs `storage_path.mkdir(parents=True, exist_ok=True)` as a side
effect on the filesystem. -/
def get_paper_path (fs : FS) (paper_id : String) (suffix : String) : String × FS :=
  (paperPath paper_id suffix, { fs with dirExists := true })

/-- The artifact-existence check exactly as the handler performs it:
`get_paper_path(paper_id, suffix).exists()`. -/
def artifact_exists (fs : FS) (paper_id : String) (suffix : String) : Bool × FS :=
  let r := get_paper_path fs paper_id suffix
  ((r.2.get r.1).isSome, r.2)

/-- Outcome of `httpx.AsyncClient().get(pdf_url)` followed by
`raise_for_status()`: bytes on 2xx, an `httpx.HTTPStatusError` carrying the
status code otherwise, or any other exception raised by the transport. -/
inductive FetchResult where
  | ok (content : String)
  | httpError (code : Nat) (msg : String)
  | exn (msg : String)
deriving DecidableEq

/-- The external collaborators: the network keyed by `paper_id` (the URL is
templated from it) and `pymupdf4llm.to_markdown` on the PDF bytes, which
either returns markdown text or raises (message). -/
structure Env where
  fetch : String → FetchResult
  to_markdown : String → Except String String

/-- Python exceptions distinguished by the `except` clauses of
`handle_download`, plus `KeyError` from `arguments["paper_id"]`. -/
inductive PyExn where
  | keyError (key : String)
  | stopIteration
  | httpStatusError (code : Nat) (msg : String)
  | otherExn (msg : String)
deriving DecidableEq

/-- `str(KeyError(k))` in Python renders the key between quote characters. -/
def pyStrKeyError (k : String) : String := "'" ++ k ++ "'"

/-- Observable actions, logged in execution order. -/
inductive Event where
  | recordCreate (paper_id : String)
  | phase (paper_id : String) (ph : String)
  | fetchCall (paper_id : String)
  | writeFile (path : String)
  | extractCall (paper_id : String)
deriving DecidableEq

/-- The JSON object returned to the caller; an `Option` field set to `none`
models an absent key (`completed_at`/`error` carry `Option (Option _)` because
the status branch emits those keys with a possibly-`null` value). -/
structure Payload where
  status : String
  message : String
  started_at : Option Nat := none
  completed_at : Option (Option Nat) := none
  error : Option (Option String) := none
  resource_uri : Option String := none
deriving DecidableEq

/-- The `arguments` dict: `paper_id = none` models a missing `"paper_id"` key;
`check_status` is `arguments.get("check_status", False)`. -/
structure Args where
  paper_id : Option String
  check_status : Bool

/-- `conversion_statuses[paper_id] = s` (dictionary assignment). -/
def statusSet (m : String → Option ConversionStatus) (pid : String)
    (s : ConversionStatus) : String → Option ConversionStatus :=
  fun q => if q = pid then some s else m q

/-- In-place mutation of the record stored under `pid` (Python field
assignment on the shared object), a no-op when no record is present. -/
def statusUpdate (m : String → Option ConversionStatus) (pid : String)
    (f : ConversionStatus → ConversionStatus) : String → Option ConversionStatus :=
  fun q => if q = pid then (m q).map f else m q

/-- Result of the `try`-body of `handle_download`: the payload or the raised
exception, the final module state (dictionary mutations persist across a
raise), the events performed before returning, and the spawned background
conversion task (`paper_id`, `pdf_path`), if any. -/
structure DlOut where
  result : Except PyExn Payload
  st : St
  events : List Event
  pending : Option (String × String)

/-- The `try`-body of `handle_download`, statement by statement. -/
def handle_download_body (env : Env) (args : Args) (st : St) (now : Nat) : DlOut :=
  match args.paper_id with
  | none => ⟨.error (.keyError "paper_id"), st, [], none⟩
  | some paper_id =>
    if args.check_status then
      -- status = conversion_statuses.get(paper_id)
      match st.conversion_statuses paper_id with
      | none =>
        -- if get_paper_path(paper_id, ".md").exists():  (the second
        -- get_paper_path call inside the f-string returns the same path)
        let ex := artifact_exists st.fs paper_id ".md"
        let st1 : St := { st with fs := ex.2 }
        if ex.1 then
          ⟨.ok { status := "success", message := "Paper is ready",
                 resource_uri := some ("file://" ++ paperPath paper_id ".md") },
           st1, [], none⟩
        else
          ⟨.ok { status := "unknown",
                 message := "No download or conversion in progress" },
           st1, [], none⟩
      | some s =>
        ⟨.ok { status := s.status,
               message := "Paper conversion " ++ s.status,
               started_at := some s.started_at,
               completed_at := some s.completed_at,
               error := some s.error },
         st, [], none⟩
    else
      -- if get_paper_path(paper_id, ".md").exists():
      let ex := artifact_exists st.fs paper_id ".md"
      let st1 : St := { st with fs := ex.2 }
      if ex.1 then
        ⟨.ok { status := "success", message := "Paper already available",
               resource_uri := some ("file://" ++ paperPath paper_id ".md") },
         st1, [], none⟩
      else
        -- if paper_id in conversion_statuses:
        match st1.conversion_statuses paper_id with
        | some s =>
          ⟨.ok { status := s.status,
                 message := "Paper conversion " ++ s.status,
                 started_at := some s.started_at },
           st1, [], none⟩
        | none =>
          -- pdf_path = get_paper_path(paper_id, ".pdf")
          let gp := get_paper_path st1.fs paper_id ".pdf"
          let pdf_path := gp.1
          -- conversion_statuses[paper_id] = ConversionStatus(
          --   paper_id=paper_id, status="downloading", started_at=datetime.now())
          let st2 : St :=
            { fs := gp.2,
              conversion_statuses := statusSet st1.conversion_statuses paper_id
                { paper_id := paper_id, status := "downloading", started_at := now } }
          let ev0 : List Event := [.recordCreate paper_id, .phase paper_id "downloading"]
          -- response = await client.get(pdf_url); response.raise_for_status()
          match env.fetch paper_id with
          | .httpError code msg =>
            ⟨.error (.httpStatusError code msg), st2,
             ev0 ++ [.fetchCall paper_id], none⟩
          | .exn msg =>
            ⟨.error (.otherExn msg), st2, ev0 ++ [.fetchCall paper_id], none⟩
          | .ok content =>
            -- open(pdf_path, "wb").write(response.content)
            let st3 : St := { st2 with fs := st2.fs.write pdf_path content }
            -- status = conversion_statuses[paper_id]; status.status = "converting"
            let upd := statusUpdate st3.conversion_statuses paper_id
              (fun s => { s with status := "converting" })
            let st4 : St := { st3 with conversion_statuses := upd }
            -- asyncio.create_task(asyncio.to_thread(convert_pdf_to_markdown, ...))
            let started := ((st4.conversion_statuses paper_id).map
              (fun s => s.started_at)).getD 0
            ⟨.ok { status := "converting",
                   message := "Paper downloaded, conversion started",
                   started_at := some started },
             st4,
             ev0 ++ [.fetchCall paper_id, .writeFile pdf_path,
                     .phase paper_id "converting"],
             some (paper_id, pdf_path)⟩

/-- `handle_download`: the body wrapped in the `except StopIteration` /
`except httpx.HTTPStatusError` / `except Exception` clauses. Returns the
payload, the final state, the events performed before returning, and the
spawned background task, if any. -/
def handle_download (env : Env) (args : Args) (st : St) (now : Nat) :
    Payload × St × List Event × Option (String × String) :=
  let o := handle_download_body env args st now
  match o.result with
  | .ok p => (p, o.st, o.events, o.pending)
  | .error e =>
    -- the f-strings below reference the bound `paper_id`; the exception kinds
    -- they handle can only be raised after the binding succeeded
    let paper_id := args.paper_id.getD ""
    let p : Payload :=
      match e with
      | .stopIteration =>
        { status := "error", message := "Paper " ++ paper_id ++ " not found on arXiv" }
      | .httpStatusError code msg =>
        if code = 404 then
          { status := "error", message := "Paper " ++ paper_id ++ " not found on arXiv" }
        else
          { status := "error", message := "Error: " ++ msg }
      | .keyError k =>
        { status := "error", message := "Error: " ++ pyStrKeyError k }
      | .otherExn msg =>
        { status := "error", message := "Error: " ++ msg }
    (p, o.st, o.events, o.pending)

/-- `convert_pdf_to_markdown`, run in a separate thread: extract markdown from
the PDF at `pdf_path`, write the final artifact, update the record; on any
exception mark the record "error". The phase event is emitted only when a
record is present (the `if status:` guard). -/
def convert_pdf_to_markdown (env : Env) (paper_id : String) (pdf_path : String)
    (st : St) (now : Nat) : St × List Event :=
  -- markdown = pymupdf4llm.to_markdown(pdf_path, show_progress=False)
  let attempt : Except String String :=
    match st.fs.get pdf_path with
    | none => .error ("no such file: " ++ pdf_path)
    | some content => env.to_markdown content
  match attempt with
  | .ok markdown =>
    let gp := get_paper_path st.fs paper_id ".md"
    let fs2 := (gp.2).write gp.1 markdown
    -- status = conversion_statuses.get(paper_id); if status: mark success
    let statuses := statusUpdate st.conversion_statuses paper_id
      (fun s => { s with status := "success", completed_at := some now })
    -- the source comment "Clean up PDF after successful conversion" has no
    -- corresponding deletion statement: the raw PDF is left in place
    ({ fs := fs2, conversion_statuses := statuses },
     [.extractCall paper_id, .writeFile gp.1] ++
       (if (st.conversion_statuses paper_id).isSome
        then [.phase paper_id "success"] else []))
  | .error e =>
    let statuses := statusUpdate st.conversion_statuses paper_id
      (fun s => { s with status := "error", completed_at := some now,
                         error := some e })
    ({ st with conversion_statuses := statuses },
     [.extractCall paper_id] ++
       (if (st.conversion_statuses paper_id).isSome
        then [.phase paper_id "error"] else []))

/-- One full conversion request followed by the background task it spawned (if
any): the lifecycle of a single job, with the two `datetime.now()` readings
passed as `now` (request) and `now2` (task completion). -/
def runFull (env : Env) (pid : String) (st : St) (now now2 : Nat) :
    Payload × St × List Event :=
  let r := handle_download env { paper_id := some pid, check_status := false } st now
  match r.2.2.2 with
  | none => (r.1, r.2.1, r.2.2.1)
  | some t =>
    let c := convert_pdf_to_markdown env t.1 t.2 r.2.1 now2
    (r.1, c.1, r.2.2.1 ++ c.2)

/-- The sequence of phases the record of `pid` moved through, read off the
event log. -/
def phaseTrace (evs : List Event) (pid : String) : List String :=
  evs.filterMap fun e =>
    match e with
    | .phase q ph => if q = pid then some ph else none
    | _ => none

end ArxivMcp

namespace ArxivMcp

/-! ### Concrete fixtures for witnesses and counterexamples -/

/-- Environment in which the fetch and the extractor both succeed. -/
def env0 : Env := ⟨fun _ => .ok "PDFBYTES", fun _ => .ok "# converted text"⟩

/-- Environment in which the remote reports 404 for every identifier. -/
def env404 : Env := ⟨fun _ => .httpError 404 "Not Found", fun _ => .ok "# converted text"⟩

/-- Environment in which the extractor returns empty markdown. -/
def envEmptyMd : Env := ⟨fun _ => .ok "PDFBYTES", fun _ => .ok ""⟩

/-- Empty initial state: no storage directory, no files, no records. -/
def st0 : St := ⟨⟨false, fun _ => none⟩, fun _ => none⟩

/-- A state with a cached final artifact for "2103.12345" and no records. -/
def stMd : St :=
  ⟨⟨true, fun p => if p = paperPath "2103.12345" ".md" then some "# cached" else none⟩,
   fun _ => none⟩

def recConv : ConversionStatus := ⟨"1111.11111", "converting", 5, none, none⟩

/-- A state with an in-flight record for "1111.11111" and its final artifact
already on disk (reachable between the background task's write of the final
artifact and its status update). -/
def stBoth : St :=
  ⟨⟨true, fun p => if p = paperPath "1111.11111" ".md" then some "# cached" else none⟩,
   fun q => if q = "1111.11111" then some recConv else none⟩

def recErr : ConversionStatus := ⟨"9999.00000", "error", 2, some 3, some "boom"⟩

/-- A state with a terminal-error record for "9999.00000" and no files. -/
def stErr : St :=
  ⟨⟨true, fun _ => none⟩, fun q => if q = "9999.00000" then some recErr else none⟩

def recDl : ConversionStatus := ⟨"2103.12345", "downloading", 1, none, none⟩

/-- A state with an in-flight "downloading" record for "2103.12345". -/
def stDl : St :=
  ⟨⟨true, fun _ => none⟩, fun q => if q = "2103.12345" then some recDl else none⟩

def recOk : ConversionStatus := ⟨"1111.11111", "success", 1, some 2, none⟩

/-- A state with a terminal-success record for "1111.11111" and no files. -/
def stOk : St :=
  ⟨⟨true, fun _ => none⟩, fun q => if q = "1111.11111" then some recOk else none⟩

/-! ### Claim theorems -/

/-- Claim C4: for every identifier whose final artifact exists on disk, a full
conversion request returns "success" with a resource reference to the final
artifact, without invoking the Fetcher or the Extractor and regardless of any
tracker record: the tracker map is unchanged, no file changes, no events occur
before returning (in particular no fetch and no extraction), and no background
task is spawned. -/
theorem c4_cached_artifact_short_circuits
    (env : Env) (st : St) (pid : String) (now : Nat) (c : String)
    (hmd : st.fs.get (paperPath pid ".md") = some c) :
    (handle_download env ⟨some pid, false⟩ st now).1.status = "success" ∧
    (handle_download env ⟨some pid, false⟩ st now).1.resource_uri
      = some ("file://" ++ paperPath pid ".md") ∧
    (handle_download env ⟨some pid, false⟩ st now).2.1.conversion_statuses
      = st.conversion_statuses ∧
    (handle_download env ⟨some pid, false⟩ st now).2.1.fs.files = st.fs.files ∧
    (handle_download env ⟨some pid, false⟩ st now).2.2.1 = [] ∧
    (handle_download env ⟨some pid, false⟩ st now).2.2.2 = none := by
  simp only [FS.get] at hmd
  simp [handle_download, handle_download_body, artifact_exists, get_paper_path,
    FS.get, hmd]

/-- Witness for C4 at a concrete state with a cached artifact. -/
theorem c4_witness :
    (handle_download env0 ⟨some "2103.12345", false⟩ stMd 5).1.status = "success" ∧
    (handle_download env0 ⟨some "2103.12345", false⟩ stMd 5).1.resource_uri
      = some ("file://" ++ paperPath "2103.12345" ".md") ∧
    (handle_download env0 ⟨some "2103.12345", false⟩ stMd 5).2.1.conversion_statuses
      = stMd.conversion_statuses ∧
    (handle_download env0 ⟨some "2103.12345", false⟩ stMd 5).2.1.fs.files
      = stMd.fs.files ∧
    (handle_download env0 ⟨some "2103.12345", false⟩ stMd 5).2.2.1 = [] ∧
    (handle_download env0 ⟨some "2103.12345", false⟩ stMd 5).2.2.2 = none :=
  c4_cached_artifact_short_circuits env0 stMd "2103.12345" 5 "# cached" rfl

/-- Claim C5: a status-only request reports the tracker record's status when a
record exists, else "success" when the final artifact is on disk, else
"unknown"; in all cases it starts no work (no background task), creates no
record (tracker map unchanged), changes no file, and performs no action at all
before returning (empty event log, hence no network call). -/
theorem c5_status_only_reports_and_is_pure
    (env : Env) (st : St) (pid : String) (now : Nat) :
    (∀ s, st.conversion_statuses pid = some s →
      (handle_download env ⟨some pid, true⟩ st now).1.status = s.status) ∧
    (st.conversion_statuses pid = none →
      (st.fs.get (paperPath pid ".md")).isSome →
      (handle_download env ⟨some pid, true⟩ st now).1.status = "success") ∧
    (st.conversion_statuses pid = none →
      st.fs.get (paperPath pid ".md") = none →
      (handle_download env ⟨some pid, true⟩ st now).1.status = "unknown") ∧
    (handle_download env ⟨some pid, true⟩ st now).2.1.conversion_statuses
      = st.conversion_statuses ∧
    (handle_download env ⟨some pid, true⟩ st now).2.1.fs.files = st.fs.files ∧
    (handle_download env ⟨some pid, true⟩ st now).2.2.1 = [] ∧
    (handle_download env ⟨some pid, true⟩ st now).2.2.2 = none := by
  refine ⟨?_, ?_, ?_, ?_, ?_, ?_, ?_⟩
  · intro s h
    simp [handle_download, handle_download_body, h]
  · intro h hmd
    simp only [FS.get, Option.isSome_iff_exists] at hmd
    obtain ⟨c, hc⟩ := hmd
    simp [handle_download, handle_download_body, artifact_exists, get_paper_path,
      FS.get, h, hc]
  · intro h hmd
    simp only [FS.get] at hmd
    simp [handle_download, handle_download_body, artifact_exists, get_paper_path,
      FS.get, h, hmd]
  all_goals
    rcases h : st.conversion_statuses pid with _ | s <;>
    rcases hmd : st.fs.files (paperPath pid ".md") with _ | c <;>
    simp [handle_download, handle_download_body, artifact_exists, get_paper_path,
      FS.get, h, hmd]

/-- Witness for C5: the record branch at a concrete in-flight state. -/
theorem c5_witness :
    (handle_download env0 ⟨some "2103.12345", true⟩ stDl 9).1.status = "downloading" :=
  (c5_status_only_reports_and_is_pure env0 stDl "2103.12345" 9).1 recDl rfl

end ArxivMcp

namespace ArxivMcp

/-- Shape of a full request on a fresh identifier when the fetch succeeds:
payload "converting" with the record's start time, record present and in
"converting", other records untouched, the raw PDF written (all other files
untouched), the events performed before returning, and the background
conversion task spawned on the written PDF. -/
theorem handle_download_fresh_ok
    (env : Env) (st : St) (pid : String) (now : Nat) (content : String)
    (hrec : st.conversion_statuses pid = none)
    (hmd : st.fs.get (paperPath pid ".md") = none)
    (hf : env.fetch pid = .ok content) :
    (handle_download env ⟨some pid, false⟩ st now).1
      = { status := "converting", message := "Paper downloaded, conversion started",
          started_at := some now } ∧
    (handle_download env ⟨some pid, false⟩ st now).2.1.conversion_statuses pid
      = some ⟨pid, "converting", now, none, none⟩ ∧
    (∀ q, q ≠ pid →
      (handle_download env ⟨some pid, false⟩ st now).2.1.conversion_statuses q
        = st.conversion_statuses q) ∧
    (handle_download env ⟨some pid, false⟩ st now).2.1.fs.get (paperPath pid ".pdf")
      = some content ∧
    (∀ p, p ≠ paperPath pid ".pdf" →
      (handle_download env ⟨some pid, false⟩ st now).2.1.fs.get p = st.fs.get p) ∧
    (handle_download env ⟨some pid, false⟩ st now).2.2.1
      = [.recordCreate pid, .phase pid "downloading", .fetchCall pid,
         .writeFile (paperPath pid ".pdf"), .phase pid "converting"] ∧
    (handle_download env ⟨some pid, false⟩ st now).2.2.2
      = some (pid, paperPath pid ".pdf") := by
  simp only [FS.get] at hmd
  refine ⟨?_, ?_, ?_, ?_, ?_, ?_, ?_⟩
  · simp [handle_download, handle_download_body, artifact_exists, get_paper_path,
      FS.write, FS.get, hrec, hmd, hf, statusSet, statusUpdate]
  · simp [handle_download, handle_download_body, artifact_exists, get_paper_path,
      FS.write, FS.get, hrec, hmd, hf, statusSet, statusUpdate]
  · intro q hq
    simp [handle_download, handle_download_body, artifact_exists, get_paper_path,
      FS.write, FS.get, hrec, hmd, hf, statusSet, statusUpdate, hq]
  · simp [handle_download, handle_download_body, artifact_exists, get_paper_path,
      FS.write, FS.get, hrec, hmd, hf, statusSet, statusUpdate]
  · intro p hp
    simp [handle_download, handle_download_body, artifact_exists, get_paper_path,
      FS.write, FS.get, hrec, hmd, hf, statusSet, statusUpdate, hp]
  · simp [handle_download, handle_download_body, artifact_exists, get_paper_path,
      FS.write, FS.get, hrec, hmd, hf, statusSet, statusUpdate]
  · simp [handle_download, handle_download_body, artifact_exists, get_paper_path,
      FS.write, FS.get, hrec, hmd, hf, statusSet, statusUpdate]

/-- Counterexample to claim C2 as stated: on a fresh identifier the network
fetch is performed before the request returns (it appears in the event log of
the call, whose events all precede the return), so the caller does block on
fetch latency; the acknowledgement is not returned immediately after record
creation. -/
theorem c2_counterexample :
    Event.fetchCall "2103.12345"
      ∈ (handle_download env0 ⟨some "2103.12345", false⟩ st0 3).2.2.1 ∧
    (handle_download env0 ⟨some "2103.12345", false⟩ st0 3).1.status
      = "converting" := by
  obtain ⟨hp, _, _, _, _, hev, _⟩ :=
    handle_download_fresh_ok env0 st0 "2103.12345" 3 "PDFBYTES" rfl rfl rfl
  exact ⟨by simp [hev], by simp [hp]⟩

/-- Claim C2 (amended): on a fresh identifier (no record, no artifact) whose
fetch succeeds, the full request creates the tracker record, performs the
network fetch synchronously before returning (the caller blocks on fetch
latency), and then returns a "converting" acknowledgement with the conversion
still pending as a background task — the extractor has not run before the
return, so the caller does not block on conversion latency. -/
theorem c2_ack_before_conversion_after_fetch
    (env : Env) (st : St) (pid : String) (now : Nat) (content : String)
    (hrec : st.conversion_statuses pid = none)
    (hmd : st.fs.get (paperPath pid ".md") = none)
    (hf : env.fetch pid = .ok content) :
    (handle_download env ⟨some pid, false⟩ st now).1.status = "converting" ∧
    (handle_download env ⟨some pid, false⟩ st now).2.1.conversion_statuses pid
      = some ⟨pid, "converting", now, none, none⟩ ∧
    Event.fetchCall pid ∈ (handle_download env ⟨some pid, false⟩ st now).2.2.1 ∧
    Event.extractCall pid ∉ (handle_download env ⟨some pid, false⟩ st now).2.2.1 ∧
    (handle_download env ⟨some pid, false⟩ st now).2.2.2
      = some (pid, paperPath pid ".pdf") := by
  obtain ⟨hp, hrec2, _, _, _, hev, hpend⟩ :=
    handle_download_fresh_ok env st pid now content hrec hmd hf
  exact ⟨by simp [hp], hrec2, by simp [hev], by simp [hev], hpend⟩

/-- Witness for C2 (amended) at a concrete fresh state. -/
theorem c2_witness :
    (handle_download env0 ⟨some "1111.11111", false⟩ st0 4).1.status = "converting" ∧
    (handle_download env0 ⟨some "1111.11111", false⟩ st0 4).2.1.conversion_statuses
      "1111.11111" = some ⟨"1111.11111", "converting", 4, none, none⟩ ∧
    Event.fetchCall "1111.11111"
      ∈ (handle_download env0 ⟨some "1111.11111", false⟩ st0 4).2.2.1 ∧
    Event.extractCall "1111.11111"
      ∉ (handle_download env0 ⟨some "1111.11111", false⟩ st0 4).2.2.1 ∧
    (handle_download env0 ⟨some "1111.11111", false⟩ st0 4).2.2.2
      = some ("1111.11111", paperPath "1111.11111" ".pdf") :=
  c2_ack_before_conversion_after_fetch env0 st0 "1111.11111" 4 "PDFBYTES" rfl rfl rfl

/-- Counterexample to claim C3 as stated: the disk check precedes the tracker
check, so with an in-flight "converting" record and the final artifact already
on disk the full request answers "success" — not the record's current status. -/
theorem c3_counterexample :
    stBoth.conversion_statuses "1111.11111" = some recConv ∧
    recConv.status = "converting" ∧
    (handle_download env0 ⟨some "1111.11111", false⟩ stBoth 7).1.status
      = "success" ∧
    ("success" : String) ≠ "converting" := by
  refine ⟨rfl, rfl, rfl, by decide⟩

/-- Claim C3 (amended): for every identifier with a tracker record, a full
conversion request creates no second record (tracker map unchanged), touches
no file, performs no action before returning (empty event log, hence no
Fetcher call), and spawns no background job — in particular a Failed record
is never retried; it returns the record's current status provided the final
artifact is not on disk (otherwise the earlier disk check answers "success"). -/
theorem c3_existing_record_no_new_job
    (env : Env) (st : St) (pid : String) (now : Nat) (s : ConversionStatus)
    (h : st.conversion_statuses pid = some s) :
    (handle_download env ⟨some pid, false⟩ st now).2.1.conversion_statuses
      = st.conversion_statuses ∧
    (handle_download env ⟨some pid, false⟩ st now).2.1.fs.files = st.fs.files ∧
    (handle_download env ⟨some pid, false⟩ st now).2.2.1 = [] ∧
    (handle_download env ⟨some pid, false⟩ st now).2.2.2 = none ∧
    (st.fs.get (paperPath pid ".md") = none →
      (handle_download env ⟨some pid, false⟩ st now).1.status = s.status) := by
  rcases hmd : st.fs.files (paperPath pid ".md") with _ | c <;>
    simp [handle_download, handle_download_body, artifact_exists, get_paper_path,
      FS.get, h, hmd]

/-- Witness for C3 (amended): a terminal-error record is surfaced, not retried. -/
theorem c3_witness :
    (handle_download env0 ⟨some "9999.00000", false⟩ stErr 3).2.1.conversion_statuses
      = stErr.conversion_statuses ∧
    (handle_download env0 ⟨some "9999.00000", false⟩ stErr 3).2.2.1 = [] ∧
    (handle_download env0 ⟨some "9999.00000", false⟩ stErr 3).2.2.2 = none ∧
    (handle_download env0 ⟨some "9999.00000", false⟩ stErr 3).1.status = "error" := by
  obtain ⟨a, b, c, d, e⟩ :=
    c3_existing_record_no_new_job env0 stErr "9999.00000" 3 recErr rfl
  exact ⟨a, c, d, e rfl⟩

end ArxivMcp

namespace ArxivMcp

/-- Counterexample to claim C1 as stated: identifier "9999.00000" against a
remote that answers 404. After the full request fails, the tracker record is
still in phase "downloading" with no completion time and no error message, and
a subsequent status-only request reports "downloading", not "error". -/
theorem c1_counterexample :
    ((handle_download env404 ⟨some "9999.00000", false⟩ st0 3).2.1.conversion_statuses
        "9999.00000").map ConversionStatus.status = some "downloading" ∧
    ((handle_download env404 ⟨some "9999.00000", false⟩ st0 3).2.1.conversion_statuses
        "9999.00000").map ConversionStatus.completed_at = some none ∧
    ((handle_download env404 ⟨some "9999.00000", false⟩ st0 3).2.1.conversion_statuses
        "9999.00000").map ConversionStatus.error = some none ∧
    (handle_download env404 ⟨some "9999.00000", true⟩
        (handle_download env404 ⟨some "9999.00000", false⟩ st0 3).2.1 4).1.status
      = "downloading" ∧
    ("downloading" : String) ≠ "error" :=
  ⟨rfl, rfl, rfl, rfl, by decide⟩

/-- Claim C1 (amended): when the Fetcher step of a full request on a fresh
identifier fails (404 or any transport error), the request itself returns an
"error" payload — for a 404 the message names the identifier and "not found" —
but the tracker record is NOT transitioned to a terminal phase: it remains in
"downloading" with `completed_at = none` and `error = none`, no background task
is spawned, and a subsequent status-only request reports "downloading". Only
Extractor failures reach the "error" phase. -/
theorem c1_fetch_failure_leaves_record_downloading
    (env : Env) (st : St) (pid : String) (now now2 : Nat)
    (hrec : st.conversion_statuses pid = none)
    (hmd : st.fs.get (paperPath pid ".md") = none)
    (hfail : (∃ code msg, env.fetch pid = .httpError code msg) ∨
             (∃ msg, env.fetch pid = .exn msg)) :
    (handle_download env ⟨some pid, false⟩ st now).1.status = "error" ∧
    (handle_download env ⟨some pid, false⟩ st now).2.1.conversion_statuses pid
      = some ⟨pid, "downloading", now, none, none⟩ ∧
    (handle_download env ⟨some pid, false⟩ st now).2.2.2 = none ∧
    (handle_download env ⟨some pid, true⟩
        (handle_download env ⟨some pid, false⟩ st now).2.1 now2).1.status
      = "downloading" ∧
    (∀ msg, env.fetch pid = .httpError 404 msg →
      (handle_download env ⟨some pid, false⟩ st now).1.message
        = "Paper " ++ pid ++ " not found on arXiv") := by
  simp only [FS.get] at hmd
  rcases hfail with ⟨code, msg, hf⟩ | ⟨msg, hf⟩
  · by_cases hc : code = 404
    · subst hc
      simp [handle_download, handle_download_body, artifact_exists, get_paper_path,
        FS.get, hrec, hmd, hf, statusSet]
    · simp [handle_download, handle_download_body, artifact_exists, get_paper_path,
        FS.get, hrec, hmd, hf, statusSet, hc]
  · simp [handle_download, handle_download_body, artifact_exists, get_paper_path,
      FS.get, hrec, hmd, hf, statusSet]

/-- Witness for C1 (amended) at the concrete scenario of the claim. -/
theorem c1_witness :
    (handle_download env404 ⟨some "9999.00000", false⟩ st0 3).1.status = "error" ∧
    (handle_download env404 ⟨some "9999.00000", false⟩ st0 3).2.1.conversion_statuses
      "9999.00000" = some ⟨"9999.00000", "downloading", 3, none, none⟩ ∧
    (handle_download env404 ⟨some "9999.00000", true⟩
        (handle_download env404 ⟨some "9999.00000", false⟩ st0 3).2.1 4).1.status
      = "downloading" ∧
    (handle_download env404 ⟨some "9999.00000", false⟩ st0 3).1.message
      = "Paper " ++ "9999.00000" ++ " not found on arXiv" := by
  obtain ⟨a, b, c, d, e⟩ := c1_fetch_failure_leaves_record_downloading env404 st0
    "9999.00000" 3 4 rfl rfl (Or.inl ⟨404, "Not Found", rfl⟩)
  exact ⟨a, b, d, e "Not Found" rfl⟩

/-- Counterexample to claim C7 as stated: the existence check calls
`get_paper_path`, which runs `mkdir(parents=True, exist_ok=True)`; on a
filesystem where the storage directory does not yet exist, the check does NOT
leave the filesystem unchanged — it creates the directory. -/
theorem c7_counterexample :
    (artifact_exists st0.fs "2103.12345" ".md").2.dirExists = true ∧
    st0.fs.dirExists = false ∧
    (artifact_exists st0.fs "2103.12345" ".md").2 ≠ st0.fs := by
  refine ⟨rfl, rfl, fun h => ?_⟩
  have hd := congrArg FS.dirExists h
  simp [artifact_exists, get_paper_path, st0] at hd

/-- Claim C7 (amended): the artifact-existence check returns exactly whether
the file for the identifier and suffix is present; it changes no file content
and touches no tracker record (it does not even receive the tracker); its only
side effect is ensuring the storage directory exists. -/
theorem c7_exists_check_reads_only
    (fs : FS) (pid sfx : String) :
    (artifact_exists fs pid sfx).1 = (fs.get (paperPath pid sfx)).isSome ∧
    (artifact_exists fs pid sfx).2.files = fs.files ∧
    (artifact_exists fs pid sfx).2.dirExists = true :=
  ⟨rfl, rfl, rfl⟩

/-- Claim C8: every exception raised inside the body of the download handler —
including the `KeyError` from a missing `paper_id` argument — is caught by the
`except` clauses and turned into a payload whose status is "error"; no
exception propagates to the caller (the handler is a total function into
payloads). -/
theorem c8_exceptions_become_error_payloads
    (env : Env) (args : Args) (st : St) (now : Nat) :
    (∀ e, (handle_download_body env args st now).result = Except.error e →
      (handle_download env args st now).1.status = "error") ∧
    (args.paper_id = none →
      (handle_download env args st now).1
        = { status := "error", message := "Error: " ++ pyStrKeyError "paper_id" }) := by
  constructor
  · intro e he
    rcases e with k | _ | ⟨code, msg⟩ | m
    · simp [handle_download, he]
    · simp [handle_download, he]
    · by_cases h4 : code = 404 <;> simp [handle_download, he, h4]
    · simp [handle_download, he]
  · intro h
    rcases args with ⟨p, cs⟩
    simp only at h
    subst h
    simp [handle_download, handle_download_body]

/-- Witness for C8: the missing-argument case on a concrete input. -/
theorem c8_witness :
    (handle_download env0 ⟨none, false⟩ st0 0).1
      = { status := "error", message := "Error: " ++ pyStrKeyError "paper_id" } :=
  (c8_exceptions_become_error_payloads env0 ⟨none, false⟩ st0 0).2 rfl

/-- Claim C9: a status-only poll of a record in the "success" phase answers
status "success" without a `resource_uri` key, while the no-record-but-
artifact-on-disk branch of the same status-only request does carry
`resource_uri`; presence of `resource_uri` cannot be inferred from
status "success". -/
theorem c9_resource_uri_only_on_disk_branch
    (env env2 : Env) (st st2 : St) (pid pid2 : String) (now now2 : Nat)
    (s : ConversionStatus) (c : String)
    (h1 : st.conversion_statuses pid = some s) (h2 : s.status = "success")
    (h3 : st2.conversion_statuses pid2 = none)
    (h4 : st2.fs.get (paperPath pid2 ".md") = some c) :
    (handle_download env ⟨some pid, true⟩ st now).1.status = "success" ∧
    (handle_download env ⟨some pid, true⟩ st now).1.resource_uri = none ∧
    (handle_download env2 ⟨some pid2, true⟩ st2 now2).1.status = "success" ∧
    (handle_download env2 ⟨some pid2, true⟩ st2 now2).1.resource_uri
      = some ("file://" ++ paperPath pid2 ".md") := by
  simp only [FS.get] at h4
  refine ⟨?_, ?_, ?_, ?_⟩ <;>
    simp [handle_download, handle_download_body, artifact_exists, get_paper_path,
      FS.get, h1, h2, h3, h4]

/-- Witness for C9 at a concrete succeeded record and a concrete cached
artifact. -/
theorem c9_witness :
    (handle_download env0 ⟨some "1111.11111", true⟩ stOk 9).1.status = "success" ∧
    (handle_download env0 ⟨some "1111.11111", true⟩ stOk 9).1.resource_uri = none ∧
    (handle_download env0 ⟨some "2103.12345", true⟩ stMd 9).1.status = "success" ∧
    (handle_download env0 ⟨some "2103.12345", true⟩ stMd 9).1.resource_uri
      = some ("file://" ++ paperPath "2103.12345" ".md") :=
  c9_resource_uri_only_on_disk_branch env0 env0 stOk stMd "1111.11111" "2103.12345"
    9 9 recOk "# cached" rfl rfl rfl rfl

end ArxivMcp

namespace ArxivMcp

/-- The raw and final paths of one identifier differ. -/
theorem paperPath_pdf_ne_md (pid : String) :
    paperPath pid ".pdf" ≠ paperPath pid ".md" := by
  intro h
  have h2 := congrArg String.length h
  simp [paperPath, String.length_append] at h2
  exact absurd h2 (by decide)

/-- Shape of a successful background conversion on a state holding the PDF and
a record: the record moves to "success" with the completion time, the final
artifact is written (all other files untouched, other records untouched), and
the events are the extractor call, the write, and the phase change. -/
theorem convert_ok_spec
    (env : Env) (pid pdfp : String) (st : St) (now2 : Nat)
    (content mdText : String) (s : ConversionStatus)
    (hpdf : st.fs.get pdfp = some content)
    (hx : env.to_markdown content = .ok mdText)
    (hs : st.conversion_statuses pid = some s) :
    (convert_pdf_to_markdown env pid pdfp st now2).1.conversion_statuses pid
      = some { s with status := "success", completed_at := some now2 } ∧
    (∀ q, q ≠ pid →
      (convert_pdf_to_markdown env pid pdfp st now2).1.conversion_statuses q
        = st.conversion_statuses q) ∧
    (convert_pdf_to_markdown env pid pdfp st now2).1.fs.get (paperPath pid ".md")
      = some mdText ∧
    (∀ p, p ≠ paperPath pid ".md" →
      (convert_pdf_to_markdown env pid pdfp st now2).1.fs.get p = st.fs.get p) ∧
    (convert_pdf_to_markdown env pid pdfp st now2).2
      = [.extractCall pid, .writeFile (paperPath pid ".md"), .phase pid "success"] := by
  simp only [FS.get] at hpdf
  refine ⟨?_, ?_, ?_, ?_, ?_⟩
  · simp [convert_pdf_to_markdown, get_paper_path, FS.write, FS.get, hpdf, hx, hs,
      statusUpdate]
  · intro q hq
    simp [convert_pdf_to_markdown, get_paper_path, FS.write, FS.get, hpdf, hx, hs,
      statusUpdate, hq]
  · simp [convert_pdf_to_markdown, get_paper_path, FS.write, FS.get, hpdf, hx, hs,
      statusUpdate]
  · intro p hp
    simp [convert_pdf_to_markdown, get_paper_path, FS.write, FS.get, hpdf, hx, hs,
      statusUpdate, hp]
  · simp [convert_pdf_to_markdown, get_paper_path, FS.write, FS.get, hpdf, hx, hs,
      statusUpdate]

/-- Combined shape of one successful job (full request plus its background
task): terminal record, both artifacts on disk, full event log. -/
theorem runFull_ok_spec
    (env : Env) (st : St) (pid : String) (now now2 : Nat) (content mdText : String)
    (hrec : st.conversion_statuses pid = none)
    (hmd : st.fs.get (paperPath pid ".md") = none)
    (hf : env.fetch pid = .ok content)
    (hx : env.to_markdown content = .ok mdText) :
    (runFull env pid st now now2).2.1.conversion_statuses pid
      = some ⟨pid, "success", now, some now2, none⟩ ∧
    (runFull env pid st now now2).2.1.fs.get (paperPath pid ".md") = some mdText ∧
    (runFull env pid st now now2).2.1.fs.get (paperPath pid ".pdf") = some content ∧
    (runFull env pid st now now2).2.2
      = [.recordCreate pid, .phase pid "downloading", .fetchCall pid,
         .writeFile (paperPath pid ".pdf"), .phase pid "converting",
         .extractCall pid, .writeFile (paperPath pid ".md"), .phase pid "success"] := by
  obtain ⟨hp, hrec2, hrecne, hpdf, hfne, hev, hpend⟩ :=
    handle_download_fresh_ok env st pid now content hrec hmd hf
  obtain ⟨ca, cb, cc, cd, ce⟩ :=
    convert_ok_spec env pid (paperPath pid ".pdf")
      (handle_download env ⟨some pid, false⟩ st now).2.1 now2 content mdText
      ⟨pid, "converting", now, none, none⟩ hpdf hx hrec2
  have hrun : runFull env pid st now now2
      = ((handle_download env ⟨some pid, false⟩ st now).1,
         (convert_pdf_to_markdown env pid (paperPath pid ".pdf")
           (handle_download env ⟨some pid, false⟩ st now).2.1 now2).1,
         (handle_download env ⟨some pid, false⟩ st now).2.2.1 ++
           (convert_pdf_to_markdown env pid (paperPath pid ".pdf")
             (handle_download env ⟨some pid, false⟩ st now).2.1 now2).2) := by
    simp [runFull, hpend]
  refine ⟨?_, ?_, ?_, ?_⟩
  · rw [hrun]
    exact ca
  · rw [hrun]
    exact cc
  · rw [hrun]
    rw [cd (paperPath pid ".pdf") (paperPath_pdf_ne_md pid)]
    exact hpdf
  · rw [hrun]
    simp [hev, ce]

/-- Counterexample to claim C6 as stated: with an extractor that returns empty
markdown the job still ends in phase "success", and the final artifact exists
on disk with EMPTY content — the code never checks non-emptiness. -/
theorem c6_counterexample :
    ((runFull envEmptyMd "2103.12345" st0 3 5).2.1.conversion_statuses
        "2103.12345").map ConversionStatus.status = some "success" ∧
    (runFull envEmptyMd "2103.12345" st0 3 5).2.1.fs.get
        (paperPath "2103.12345" ".md") = some "" :=
  ⟨rfl, rfl⟩

/-- Claim C6 (amended): a successful job passes through exactly the phases
"downloading" → "converting" → "success" in that order, `completed_at` is set
on entering the terminal phase with `completed_at ≥ started_at` (the two clock
readings being monotone), and afterwards the final text artifact exists on
disk with content equal to the Extractor's output — which the pipeline does
not guarantee to be non-empty. -/
theorem c6_success_lifecycle
    (env : Env) (st : St) (pid : String) (now now2 : Nat) (content mdText : String)
    (hrec : st.conversion_statuses pid = none)
    (hmd : st.fs.get (paperPath pid ".md") = none)
    (hf : env.fetch pid = .ok content)
    (hx : env.to_markdown content = .ok mdText)
    (ht : now ≤ now2) :
    phaseTrace (runFull env pid st now now2).2.2 pid
      = ["downloading", "converting", "success"] ∧
    (runFull env pid st now now2).2.1.conversion_statuses pid
      = some ⟨pid, "success", now, some now2, none⟩ ∧
    now ≤ now2 ∧
    (runFull env pid st now now2).2.1.fs.get (paperPath pid ".md") = some mdText := by
  obtain ⟨ra, rb, rc, rd⟩ := runFull_ok_spec env st pid now now2 content mdText
    hrec hmd hf hx
  refine ⟨?_, ra, ht, rb⟩
  rw [rd]
  simp [phaseTrace]

/-- Witness for C6 (amended) at a concrete fresh state and succeeding
environment. -/
theorem c6_witness :
    phaseTrace (runFull env0 "1111.11111" st0 3 5).2.2 "1111.11111"
      = ["downloading", "converting", "success"] ∧
    (runFull env0 "1111.11111" st0 3 5).2.1.conversion_statuses "1111.11111"
      = some ⟨"1111.11111", "success", 3, some 5, none⟩ ∧
    3 ≤ 5 ∧
    (runFull env0 "1111.11111" st0 3 5).2.1.fs.get (paperPath "1111.11111" ".md")
      = some "# converted text" :=
  c6_success_lifecycle env0 st0 "1111.11111" 3 5 "PDFBYTES" "# converted text"
    rfl rfl rfl rfl (by decide)

/-- The download handler never removes a file: any file present before a call
is present after it (the handler only ever writes the raw PDF). -/
theorem handle_download_preserves_files
    (env : Env) (args : Args) (st : St) (now : Nat) (q : String)
    (hq : (st.fs.get q).isSome) :
    (((handle_download env args st now).2.1).fs.get q).isSome := by
  simp only [FS.get] at hq ⊢
  rcases args with ⟨pid?, cs⟩
  rcases pid? with _ | pid
  · simpa [handle_download, handle_download_body] using hq
  · cases cs
    · rcases hmd : st.fs.files (paperPath pid ".md") with _ | c
      · rcases hs : st.conversion_statuses pid with _ | s
        · rcases hf : env.fetch pid with c2 | ⟨code, m⟩ | m
          · simp [handle_download, handle_download_body, artifact_exists,
              get_paper_path, FS.write, FS.get, hmd, hs, hf]
            split <;> simp [hq]
          · simpa [handle_download, handle_download_body, artifact_exists,
              get_paper_path, FS.get, hmd, hs, hf] using hq
          · simpa [handle_download, handle_download_body, artifact_exists,
              get_paper_path, FS.get, hmd, hs, hf] using hq
        · simpa [handle_download, handle_download_body, artifact_exists,
            get_paper_path, FS.get, hmd, hs] using hq
      · simpa [handle_download, handle_download_body, artifact_exists,
          get_paper_path, FS.get, hmd] using hq
    · rcases hs : st.conversion_statuses pid with _ | s
      · rcases hmd : st.fs.files (paperPath pid ".md") with _ | c <;>
          simpa [handle_download, handle_download_body, artifact_exists,
            get_paper_path, FS.get, hs, hmd] using hq
      · simpa [handle_download, handle_download_body, hs] using hq

/-- The background conversion never removes a file: any file present before it
runs is present after it (it only ever writes the final artifact). -/
theorem convert_preserves_files
    (env : Env) (pid pdfp : String) (st : St) (now : Nat) (q : String)
    (hq : (st.fs.get q).isSome) :
    ((convert_pdf_to_markdown env pid pdfp st now).1.fs.get q).isSome := by
  simp only [FS.get] at hq ⊢
  rcases hp : st.fs.files pdfp with _ | content
  · simpa [convert_pdf_to_markdown, FS.get, hp] using hq
  · rcases hx : env.to_markdown content with e | md
    · simpa [convert_pdf_to_markdown, FS.get, hp, hx] using hq
    · simp [convert_pdf_to_markdown, get_paper_path, FS.write, FS.get, hp, hx]
      split <;> simp [hq]

/-- Claim C10: a successful conversion never deletes the raw artifact — after
a job succeeds both the raw PDF and the final markdown are on disk; moreover
no operation of the pipeline (neither the handler nor the background
conversion) removes any file. -/
theorem c10_raw_artifact_never_deleted
    (env : Env) (st : St) (pid : String) (now now2 : Nat) (content mdText : String)
    (hrec : st.conversion_statuses pid = none)
    (hmd : st.fs.get (paperPath pid ".md") = none)
    (hf : env.fetch pid = .ok content)
    (hx : env.to_markdown content = .ok mdText) :
    (runFull env pid st now now2).2.1.fs.get (paperPath pid ".pdf") = some content ∧
    (runFull env pid st now now2).2.1.fs.get (paperPath pid ".md") = some mdText ∧
    (∀ env2 args2 st2 n2 q, (st2.fs.get q).isSome →
      (((handle_download env2 args2 st2 n2).2.1).fs.get q).isSome) ∧
    (∀ env2 p2 pp2 st2 n2 q, (st2.fs.get q).isSome →
      ((convert_pdf_to_markdown env2 p2 pp2 st2 n2).1.fs.get q).isSome) := by
  obtain ⟨ra, rb, rc, rd⟩ := runFull_ok_spec env st pid now now2 content mdText
    hrec hmd hf hx
  exact ⟨rc, rb,
    fun env2 args2 st2 n2 q hq => handle_download_preserves_files env2 args2 st2 n2 q hq,
    fun env2 p2 pp2 st2 n2 q hq => convert_preserves_files env2 p2 pp2 st2 n2 q hq⟩

/-- Witness for C10 at concrete inputs, including one concrete instance of
each preservation conjunct. -/
theorem c10_witness :
    (runFull env0 "1111.11111" st0 3 5).2.1.fs.get (paperPath "1111.11111" ".pdf")
      = some "PDFBYTES" ∧
    (runFull env0 "1111.11111" st0 3 5).2.1.fs.get (paperPath "1111.11111" ".md")
      = some "# converted text" ∧
    (((handle_download env0 ⟨some "2103.12345", false⟩ stMd 9).2.1).fs.get
      (paperPath "2103.12345" ".md")).isSome ∧
    ((convert_pdf_to_markdown env0 "2103.12345" (paperPath "2103.12345" ".pdf")
      stMd 9).1.fs.get (paperPath "2103.12345" ".md")).isSome := by
  obtain ⟨a, b, c, d⟩ := c10_raw_artifact_never_deleted env0 st0 "1111.11111" 3 5
    "PDFBYTES" "# converted text" rfl rfl rfl rfl
  exact ⟨a, b,
    c env0 ⟨some "2103.12345", false⟩ stMd 9 (paperPath "2103.12345" ".md") (by decide),
    d env0 "2103.12345" (paperPath "2103.12345" ".pdf") stMd 9
      (paperPath "2103.12345" ".md") (by decide)⟩

end ArxivMcp
